import Mathlib

/-!
Verification of the posture scoring and feedback engine in `src/main.py`
(Posture & Desk Setup Assistant API, version 1.3.0).

The engine is shallowly embedded: JSON metric values become the inductive
`JVal` (a number, an explicit null, or a non-numeric value whose arithmetic
evaluation raises a Python `TypeError`, modelled by `JVal.bad`); the metric
dict becomes an association list; Python exceptions become `Except Unit`.
Numbers are embedded as rationals (only order comparisons, absolute value and
integer subtraction occur, so rationals are a faithful carrier for the
float arithmetic the engine performs).
-/

/-- A JSON value stored in the `metrics` dict: a number, an explicit `null`,
or any other (non-numeric) value.  Applying `abs` to, or comparing, a
non-numeric value raises `TypeError` in Python; `JVal.bad` models such a
value. -/
inductive JVal where
  | null : JVal
  | num : ℚ → JVal
  | bad : JVal
deriving DecidableEq

/-- The `metrics` dict of the request: an association list from key to value.
`dict.get(k)` returns `None` when the key is absent, which the engine treats
identically to an explicit null value, so absence maps to `JVal.null`. -/
abbrev Metrics := List (String × JVal)

/-- `metrics.get(key)` — first binding wins, absent key yields null. -/
def dictGet : Metrics → String → JVal
  | [], _ => .null
  | (k, v) :: rest, key => if k = key then v else dictGet rest key

/-- Prefix test on character lists (helper for substring matching). -/
def lcharsPre : List Char → List Char → Bool
  | [], _ => true
  | _ :: _, [] => false
  | a :: as, b :: bs => a = b && lcharsPre as bs

/-- Substring test on character lists (helper for Python's `tok in s`). -/
def lcharsSub (n : List Char) : List Char → Bool
  | [] => lcharsPre n []
  | c :: rest => lcharsPre n (c :: rest) || lcharsSub n rest

/-- Python `s.lower()` (character-wise lowercasing). -/
def lowerStr (s : String) : String := String.mk (s.data.map Char.toLower)

/-- Python `tok in s.lower()` for an already-lowercase token `tok`. -/
def containsTok (s : String) (tok : String) : Bool :=
  lcharsSub tok.data (lowerStr s).data

/-- Python `abs` on a number. -/
def pyAbs (q : ℚ) : ℚ := if q < 0 then -q else q

/-- The `THRESHOLDS` constant table of `main.py` (decimal literals written as
rationals: 0.1 = mkRat 1 10, 0.15 = mkRat 3 20, 0.20 = mkRat 1 5). -/
structure ThresholdTable where
  shoulder_angle_warning : ℚ
  shoulder_angle_significant : ℚ
  head_forward_ratio_warning : ℚ
  head_forward_ratio_significant : ℚ
  torso_angle_warning : ℚ
  torso_angle_significant : ℚ
  spine_offset_ratio_warning : ℚ
  spine_offset_ratio_significant : ℚ

def THRESHOLDS : ThresholdTable where
  shoulder_angle_warning := 5
  shoulder_angle_significant := 10
  head_forward_ratio_warning := mkRat 1 10
  head_forward_ratio_significant := mkRat 3 20
  torso_angle_warning := 15
  torso_angle_significant := 20
  spine_offset_ratio_warning := mkRat 3 20
  spine_offset_ratio_significant := mkRat 1 5

/-- The `PENALTIES` constant table of `main.py`. -/
structure PenaltyTable where
  significant : ℤ
  warning : ℤ
  missing_data_low : ℤ
  visibility_issue : ℤ

def PENALTIES : PenaltyTable where
  significant := 22
  warning := 14
  missing_data_low := 5
  visibility_issue := 6

/-- One metric's contribution to the score when the metric's magnitude is its
absolute value (`shoulderAngle`, `torsoAngleFromVertical`).  A null (or
absent) value costs `missing_data_low` unless a visibility issue is present;
a non-numeric value raises. -/
def scoreMetricAbs (v : JVal) (wTh sTh : ℚ) (hasVis : Bool) : Except Unit ℤ :=
  match v with
  | .null => if hasVis then .ok 0 else .ok PENALTIES.missing_data_low
  | .bad => .error ()
  | .num q =>
    let a := pyAbs q
    if a > sTh then .ok PENALTIES.significant
    else if a > wTh then .ok PENALTIES.warning
    else .ok 0

/-- One metric's contribution to the score when the raw value is compared
(`spineHorizontalOffsetRatio`, `headForwardRatio`). -/
def scoreMetricRaw (v : JVal) (wTh sTh : ℚ) (hasVis : Bool) : Except Unit ℤ :=
  match v with
  | .null => if hasVis then .ok 0 else .ok PENALTIES.missing_data_low
  | .bad => .error ()
  | .num q =>
    if q > sTh then .ok PENALTIES.significant
    else if q > wTh then .ok PENALTIES.warning
    else .ok 0

/-- `calculate_overall_score` of `main.py`.  Returns `Except.error ()` when a
non-numeric metric value makes the Python code raise; otherwise `.ok none`
(the insufficient-data outcome) or `.ok (some s)`.  The accumulated score is
an integer throughout (100 minus integer penalties), so Python's `round` is
the identity and is not written. -/
def calculate_overall_score (metrics : Metrics) (issues : List String) :
    Except Unit (Option ℤ) :=
  if metrics.isEmpty &&
      (issues.isEmpty ||
        issues.all fun i => containsTok i "visibility" || containsTok i "waiting") then
    .ok none
  else do
    let hasVis := issues.any fun i => containsTok i "visibility"
    let p1 ← scoreMetricAbs (dictGet metrics "shoulderAngle")
      THRESHOLDS.shoulder_angle_warning THRESHOLDS.shoulder_angle_significant hasVis
    let p2 ← scoreMetricAbs (dictGet metrics "torsoAngleFromVertical")
      THRESHOLDS.torso_angle_warning THRESHOLDS.torso_angle_significant hasVis
    let p3 ← scoreMetricRaw (dictGet metrics "spineHorizontalOffsetRatio")
      THRESHOLDS.spine_offset_ratio_warning THRESHOLDS.spine_offset_ratio_significant hasVis
    let p4 ← scoreMetricRaw (dictGet metrics "headForwardRatio")
      THRESHOLDS.head_forward_ratio_warning THRESHOLDS.head_forward_ratio_significant hasVis
    let score : ℤ :=
      100 - p1 - p2 - p3 - p4 - (if hasVis then PENALTIES.visibility_issue else 0)
    .ok (some (max 0 (min 100 score)))

/-- One metric's contribution to the assessment, absolute-value form
(`shoulderAngle`, `torsoAngleFromVertical`): a pair of phrase list and
recommendation list, or a raised error on a non-numeric value. -/
def assessMetricAbs (v : JVal) (wTh sTh : ℚ)
    (sigPhrase : String) (sigRecs : List String)
    (warnPhrase : String) (warnRecs : List String) :
    Except Unit (List String × List String) :=
  match v with
  | .null => .ok ([], [])
  | .bad => .error ()
  | .num q =>
    let a := pyAbs q
    if a > sTh then .ok ([sigPhrase], sigRecs)
    else if a > wTh then .ok ([warnPhrase], warnRecs)
    else .ok ([], [])

/-- One metric's contribution to the assessment, raw-value form
(`spineHorizontalOffsetRatio`, `headForwardRatio`). -/
def assessMetricRaw (v : JVal) (wTh sTh : ℚ)
    (sigPhrase : String) (sigRecs : List String)
    (warnPhrase : String) (warnRecs : List String) :
    Except Unit (List String × List String) :=
  match v with
  | .null => .ok ([], [])
  | .bad => .error ()
  | .num q =>
    if q > sTh then .ok ([sigPhrase], sigRecs)
    else if q > wTh then .ok ([warnPhrase], warnRecs)
    else .ok ([], [])

/-- The single `try`/`except` around the four metric assessments in
`analyze_posture_endpoint` (lines 143-188).  On the first raising step the
phrases and recommendations gathered so far are kept, the remaining steps
are skipped, and "Error during metric analysis." is appended to the
phrases. -/
def runAssess : List (Except Unit (List String × List String)) →
    List String × List String
  | [] => ([], [])
  | .error () :: _ => (["Error during metric analysis."], [])
  | .ok (ps, rs) :: rest =>
    let t := runAssess rest
    (ps ++ t.1, rs ++ t.2)

/-- The assessment block of `analyze_posture_endpoint`: the four metrics in
source order (shoulder, spine offset, torso, head), producing
`assessment_parts` and `recommendations`. -/
def assessBlock (metrics : Metrics) : List String × List String :=
  runAssess
    [assessMetricAbs (dictGet metrics "shoulderAngle")
       THRESHOLDS.shoulder_angle_warning THRESHOLDS.shoulder_angle_significant
       "Shoulders significantly uneven."
       ["Sit evenly, relax shoulders.", "Check armrest height/usage."]
       "Shoulders slightly uneven."
       ["Be mindful of keeping shoulders level."],
     assessMetricRaw (dictGet metrics "spineHorizontalOffsetRatio")
       THRESHOLDS.spine_offset_ratio_warning THRESHOLDS.spine_offset_ratio_significant
       "Significant sideways lean."
       ["Engage core, sit centered.", "Avoid leaning heavily on one armrest."]
       "Slight sideways lean."
       ["Check if leaning towards monitor or on armrest."],
     assessMetricAbs (dictGet metrics "torsoAngleFromVertical")
       THRESHOLDS.torso_angle_warning THRESHOLDS.torso_angle_significant
       "Significant slouch or backward lean."
       ["Sit tall, chest up.", "Use lumbar support actively.", "Stretch chest/back during breaks."]
       "Slight slouch or backward lean."
       ["Gently pull shoulder blades back/down. Imagine head pulled up."],
     assessMetricRaw (dictGet metrics "headForwardRatio")
       THRESHOLDS.head_forward_ratio_warning THRESHOLDS.head_forward_ratio_significant
       "Significant forward head posture."
       ["Gently tuck chin (ears over shoulders).", "Ensure monitor at eye level & arm's length."]
       "Slight forward head posture."
       ["Perform chin tucks periodically. Check monitor distance."]]

/-- De-duplication keeping first occurrences (Python `dict.fromkeys`),
with an accumulator of already-seen strings. -/
def dedupSeen (seen : List String) : List String → List String
  | [] => []
  | x :: rest =>
    if x ∈ seen then dedupSeen seen rest
    else x :: dedupSeen (x :: seen) rest

/-- Python `list(dict.fromkeys(l))`. -/
def dedupFirst (l : List String) : List String := dedupSeen [] l

/-- Python `". ".join(l)`. -/
def joinDotSpace : List String → String
  | [] => ""
  | [s] => s
  | s :: rest => s ++ ". " ++ joinDotSpace rest

/-- Left-to-right, non-overlapping replacement of ".." by "." on a character
list (Python `s.replace("..", ".")`). -/
def replDots : List Char → List Char
  | '.' :: '.' :: rest => '.' :: replDots rest
  | c :: rest => c :: replDots rest
  | [] => []

/-- Python `s.replace("..", ".")`. -/
def replaceDots (s : String) : String := String.mk (replDots s.data)

/-- Whitespace for Python `str.strip`. -/
def isWS (c : Char) : Bool :=
  c = ' ' || c = '\t' || c = '\n' || c = '\x0d'

/-- Python `s.strip()`. -/
def pyStrip (s : String) : String :=
  String.mk (((s.data.dropWhile isWS).reverse.dropWhile isWS).reverse)

/-- The fixed `maintenance_tips` list of `analyze_posture_endpoint`. -/
def MAINTENANCE_TIPS : List String :=
  ["Take brief breaks every 30 mins to stretch/move.",
   "Ensure feet flat, knees ~90°, back supported.",
   "Keep elbows near 90° while typing, close to body.",
   "Monitor top roughly at eye level, arm's length away.",
   "Use lumbar support for spine's natural curve."]

/-- The fixed `benefits` string of `analyze_posture_endpoint`. -/
def BENEFITS : String :=
  "Good posture reduces pain (back, neck, shoulders), improves breathing & focus, and prevents long-term spinal issues."

/-- The response body (`PostureFeedback` model of `main.py`). -/
structure PostureFeedback where
  score : Option ℤ
  assessment : String
  recommendations : List String
  maintenance_tips : List String
  benefits : Option String
deriving DecidableEq

/-- The pure response-composition tail of `analyze_posture_endpoint`
(lines 193-232): assessment-string resolution, the score-at-least-85
overwrite, extras decision, recommendation de-duplication, and the
visibility/waiting-only override. -/
def composeFeedback (assessment_parts recommendations : List String)
    (final_score : Option ℤ) (issues : List String) : PostureFeedback :=
  let has_specific_posture_issue : Bool := !assessment_parts.isEmpty
  let has_visibility_issue : Bool :=
    issues.any fun p => containsTok p "visibility" || containsTok p "unclear"
  let is_waiting : Bool := issues.any fun p => containsTok p "waiting"
  let final_assessment :=
    if assessment_parts.isEmpty && !has_visibility_issue && !is_waiting then
      "Posture analysis indicates good alignment."
    else if has_visibility_issue && assessment_parts.isEmpty then
      "Could not analyze clearly due to visibility. Adjust position/lighting."
    else if is_waiting && assessment_parts.isEmpty then
      "Waiting for clearer pose data."
    else
      joinDotSpace (dedupFirst assessment_parts) ++ "." ++
        (if has_visibility_issue then " Visibility may affect accuracy." else "")
  let final_assessment := pyStrip (replaceDots final_assessment)
  let scoreGE85 : Bool := match final_score with
    | some s => 85 ≤ s
    | none => false
  let state1 : String × Bool :=
    if scoreGE85 && !has_specific_posture_issue && !has_visibility_issue then
      ("Posture looks great! Keep it up.", true)
    else if has_specific_posture_issue then (final_assessment, true)
    else (final_assessment, false)
  let unique_recommendations :=
    dedupFirst (recommendations.filter fun r => !(r = ""))
  let state2 : List String × Bool :=
    if (has_visibility_issue || is_waiting) && !has_specific_posture_issue then
      ([], false)
    else (unique_recommendations, state1.2)
  { score := final_score
    assessment := state1.1
    recommendations := state2.1
    maintenance_tips := if state2.2 then MAINTENANCE_TIPS else []
    benefits := if state2.2 then some BENEFITS else none }

/-- `analyze_posture_endpoint` of `main.py` on parsed inputs: runs the
assessment block (with its internal fault containment), then the scorer
(whose exceptions escape to the outer handler, aborting the request with a
500 response — modelled as `Except.error ()`), then composes the response. -/
def analyze_posture_endpoint (metrics : Metrics) (issues : List String) :
    Except Unit PostureFeedback :=
  let ab := assessBlock metrics
  (calculate_overall_score metrics issues).map fun final_score =>
    composeFeedback ab.1 ab.2 final_score issues

/-! ### Helper lemmas -/

/-- Well-formed metrics per the data model: every value is a number or null
(the transport collaborator guarantees this for the Scorer's contract). -/
def WF (metrics : Metrics) : Prop := ∀ p ∈ metrics, p.2 ≠ JVal.bad

instance (metrics : Metrics) : Decidable (WF metrics) := by
  unfold WF
  infer_instance

theorem dictGet_ne_bad (metrics : Metrics) (hwf : WF metrics) (k : String) :
    dictGet metrics k ≠ JVal.bad := by
  induction metrics with
  | nil => simp [dictGet]
  | cons a l ih =>
    obtain ⟨k', v⟩ := a
    simp only [dictGet]
    split
    · exact hwf (k', v) (List.mem_cons_self _ _)
    · exact ih fun p hp => hwf p (List.mem_cons_of_mem _ hp)

theorem scoreMetricAbs_ok (v : JVal) (w s : ℚ) (b : Bool) (hv : v ≠ JVal.bad) :
    ∃ z, scoreMetricAbs v w s b = .ok z := by
  cases v with
  | null => simp only [scoreMetricAbs]; split <;> exact ⟨_, rfl⟩
  | num q =>
    simp only [scoreMetricAbs]
    split
    · exact ⟨_, rfl⟩
    · split <;> exact ⟨_, rfl⟩
  | bad => exact absurd rfl hv

theorem scoreMetricRaw_ok (v : JVal) (w s : ℚ) (b : Bool) (hv : v ≠ JVal.bad) :
    ∃ z, scoreMetricRaw v w s b = .ok z := by
  cases v with
  | null => simp only [scoreMetricRaw]; split <;> exact ⟨_, rfl⟩
  | num q =>
    simp only [scoreMetricRaw]
    split
    · exact ⟨_, rfl⟩
    · split <;> exact ⟨_, rfl⟩
  | bad => exact absurd rfl hv

theorem calc_ok (metrics : Metrics) (issues : List String)
    (h1 : dictGet metrics "shoulderAngle" ≠ JVal.bad)
    (h2 : dictGet metrics "torsoAngleFromVertical" ≠ JVal.bad)
    (h3 : dictGet metrics "spineHorizontalOffsetRatio" ≠ JVal.bad)
    (h4 : dictGet metrics "headForwardRatio" ≠ JVal.bad) :
    ∃ r, calculate_overall_score metrics issues = .ok r := by
  unfold calculate_overall_score
  split
  · exact ⟨none, rfl⟩
  · obtain ⟨z1, e1⟩ := scoreMetricAbs_ok _ THRESHOLDS.shoulder_angle_warning
      THRESHOLDS.shoulder_angle_significant
      (issues.any fun i => containsTok i "visibility") h1
    obtain ⟨z2, e2⟩ := scoreMetricAbs_ok _ THRESHOLDS.torso_angle_warning
      THRESHOLDS.torso_angle_significant
      (issues.any fun i => containsTok i "visibility") h2
    obtain ⟨z3, e3⟩ := scoreMetricRaw_ok _ THRESHOLDS.spine_offset_ratio_warning
      THRESHOLDS.spine_offset_ratio_significant
      (issues.any fun i => containsTok i "visibility") h3
    obtain ⟨z4, e4⟩ := scoreMetricRaw_ok _ THRESHOLDS.head_forward_ratio_warning
      THRESHOLDS.head_forward_ratio_significant
      (issues.any fun i => containsTok i "visibility") h4
    simp only [e1, e2, e3, e4]
    exact ⟨_, rfl⟩

theorem isEmpty_false_of_bad (metrics : Metrics) (k : String)
    (h : dictGet metrics k = JVal.bad) : metrics.isEmpty = false := by
  cases metrics with
  | nil => simp [dictGet] at h
  | cons a l => rfl

theorem calc_err (metrics : Metrics) (issues : List String)
    (h : dictGet metrics "shoulderAngle" = JVal.bad ∨
         dictGet metrics "spineHorizontalOffsetRatio" = JVal.bad ∨
         dictGet metrics "torsoAngleFromVertical" = JVal.bad ∨
         dictGet metrics "headForwardRatio" = JVal.bad) :
    calculate_overall_score metrics issues = .error () := by
  have hne : metrics.isEmpty = false := by
    rcases h with h | h | h | h <;> exact isEmpty_false_of_bad _ _ h
  unfold calculate_overall_score
  rw [if_neg (by simp [hne])]
  dsimp only
  by_cases h1 : dictGet metrics "shoulderAngle" = JVal.bad
  · rw [h1]; rfl
  · obtain ⟨z1, e1⟩ := scoreMetricAbs_ok _ THRESHOLDS.shoulder_angle_warning
      THRESHOLDS.shoulder_angle_significant
      (issues.any fun i => containsTok i "visibility") h1
    rw [e1]
    by_cases h2 : dictGet metrics "torsoAngleFromVertical" = JVal.bad
    · rw [h2]; rfl
    · obtain ⟨z2, e2⟩ := scoreMetricAbs_ok _ THRESHOLDS.torso_angle_warning
        THRESHOLDS.torso_angle_significant
        (issues.any fun i => containsTok i "visibility") h2
      rw [e2]
      by_cases h3 : dictGet metrics "spineHorizontalOffsetRatio" = JVal.bad
      · rw [h3]; rfl
      · obtain ⟨z3, e3⟩ := scoreMetricRaw_ok _ THRESHOLDS.spine_offset_ratio_warning
          THRESHOLDS.spine_offset_ratio_significant
          (issues.any fun i => containsTok i "visibility") h3
        rw [e3]
        by_cases h4 : dictGet metrics "headForwardRatio" = JVal.bad
        · rw [h4]; rfl
        · exfalso
          rcases h with h | h | h | h
          · exact h1 h
          · exact h3 h
          · exact h2 h
          · exact h4 h

theorem assessMetricAbs_ok (v : JVal) (w s : ℚ) (sp : String) (sr : List String)
    (wp : String) (wr : List String) (hv : v ≠ JVal.bad) :
    ∃ pr, assessMetricAbs v w s sp sr wp wr = .ok pr := by
  cases v with
  | null => exact ⟨_, rfl⟩
  | num q =>
    simp only [assessMetricAbs]
    split
    · exact ⟨_, rfl⟩
    · split <;> exact ⟨_, rfl⟩
  | bad => exact absurd rfl hv

theorem assessMetricRaw_ok (v : JVal) (w s : ℚ) (sp : String) (sr : List String)
    (wp : String) (wr : List String) (hv : v ≠ JVal.bad) :
    ∃ pr, assessMetricRaw v w s sp sr wp wr = .ok pr := by
  cases v with
  | null => exact ⟨_, rfl⟩
  | num q =>
    simp only [assessMetricRaw]
    split
    · exact ⟨_, rfl⟩
    · split <;> exact ⟨_, rfl⟩
  | bad => exact absurd rfl hv

theorem runAssess_err (l : List (Except Unit (List String × List String)))
    (h : Except.error () ∈ l) :
    ∃ ps, (runAssess l).1 = ps ++ ["Error during metric analysis."] := by
  induction l with
  | nil => simp at h
  | cons e rest ih =>
    cases e with
    | error u => cases u; exact ⟨[], rfl⟩
    | ok pr =>
      obtain ⟨ps0, rs0⟩ := pr
      have hrest : Except.error () ∈ rest := by
        rcases List.mem_cons.mp h with h' | h'
        · exact absurd h'.symm (by simp)
        · exact h'
      obtain ⟨ps, hps⟩ := ih hrest
      exact ⟨ps0 ++ ps, by simp [runAssess, hps]⟩

theorem runAssess_no_err (l : List (Except Unit (List String × List String)))
    (h : (runAssess l).1 = []) : ∀ e ∈ l, e ≠ .error () := by
  induction l with
  | nil => simp
  | cons e rest ih =>
    cases e with
    | error u =>
      cases u
      exfalso
      simp [runAssess] at h
    | ok pr =>
      obtain ⟨ps0, rs0⟩ := pr
      simp only [runAssess] at h
      have h' := List.append_eq_nil.mp h
      intro e he
      rcases List.mem_cons.mp he with h'' | h''
      · subst h''; simp
      · exact ih h'.2 e h''

theorem mem_dedupSeen (l : List String) (seen : List String) (x : String)
    (h : x ∈ dedupSeen seen l) : x ∉ seen := by
  induction l generalizing seen with
  | nil => simp [dedupSeen] at h
  | cons y rest ih =>
    simp only [dedupSeen] at h
    split at h
    · exact ih seen h
    · rcases List.mem_cons.mp h with h' | h'
      · subst h'; assumption
      · intro hx
        exact ih (y :: seen) h' (List.mem_cons_of_mem _ hx)

theorem dedupSeen_nodup (l : List String) (seen : List String) :
    (dedupSeen seen l).Nodup := by
  induction l generalizing seen with
  | nil => exact List.nodup_nil
  | cons y rest ih =>
    simp only [dedupSeen]
    split
    · exact ih seen
    · refine List.Nodup.cons ?_ (ih (y :: seen))
      intro hy
      exact mem_dedupSeen rest (y :: seen) y hy (List.mem_cons_self _ _)

theorem dedupSeen_sublist (l : List String) (seen : List String) :
    List.Sublist (dedupSeen seen l) l := by
  induction l generalizing seen with
  | nil => exact List.Sublist.refl _
  | cons y rest ih =>
    simp only [dedupSeen]
    split
    · exact List.Sublist.cons _ (ih seen)
    · exact List.Sublist.cons₂ _ (ih (y :: seen))

theorem dedupFirst_nodup (l : List String) : (dedupFirst l).Nodup :=
  dedupSeen_nodup l []

theorem dedupFirst_sublist (l : List String) : List.Sublist (dedupFirst l) l :=
  dedupSeen_sublist l []

/-- The endpoint succeeds exactly when the Scorer does, and then returns the
composed feedback. -/
theorem endpoint_ok_iff (metrics : Metrics) (issues : List String)
    (fb : PostureFeedback) :
    analyze_posture_endpoint metrics issues = .ok fb ↔
      ∃ r, calculate_overall_score metrics issues = .ok r ∧
        fb = composeFeedback (assessBlock metrics).1 (assessBlock metrics).2 r issues := by
  unfold analyze_posture_endpoint
  cases h : calculate_overall_score metrics issues with
  | error u =>
    cases u
    simp [Except.map]
  | ok r =>
    simp only [Except.map, Except.ok.injEq]
    constructor
    · intro h'; exact ⟨r, rfl, h'.symm⟩
    · rintro ⟨r', hr', rfl⟩
      obtain rfl : r = r' := by
        have := hr'
        simp at this
        exact this
      rfl

/-! ### Claims -/

/-- Claim C1, counterexample.  With `shoulderAngle` bound to a non-numeric
value and `torsoAngleFromVertical` = 25, the claim predicts the torso phrase
and its recommendations to survive and the request to complete; the code
instead drops the torso assessment (the single `try` stops at the first
fault) and aborts the whole request (the Scorer re-raises on the same value,
escaping to the 500 handler).  The third conjunct shows what the faulting
metric's absence would have produced. -/
theorem C1_counterexample :
    analyze_posture_endpoint
      [("shoulderAngle", JVal.bad), ("torsoAngleFromVertical", JVal.num 25)] []
      = .error () ∧
    (assessBlock
      [("shoulderAngle", JVal.bad), ("torsoAngleFromVertical", JVal.num 25)]).1
      = ["Error during metric analysis."] ∧
    (assessBlock [("torsoAngleFromVertical", JVal.num 25)]).1
      = ["Significant slouch or backward lean."] :=
  ⟨rfl, rfl, rfl⟩

/-- Claim C1, amended.  If any recognized metric holds a value whose
evaluation faults, the Assessor appends "Error during metric analysis." after
the phrases gathered so far — but the metrics after the faulting one are
skipped (one shared `try` covers all four), and the Scorer then evaluates the
same value without containment, so the request is aborted with a server
error. -/
theorem C1_theorem (metrics : Metrics) (issues : List String)
    (h : dictGet metrics "shoulderAngle" = JVal.bad ∨
         dictGet metrics "spineHorizontalOffsetRatio" = JVal.bad ∨
         dictGet metrics "torsoAngleFromVertical" = JVal.bad ∨
         dictGet metrics "headForwardRatio" = JVal.bad) :
    (∃ ps, (assessBlock metrics).1 = ps ++ ["Error during metric analysis."]) ∧
    analyze_posture_endpoint metrics issues = .error () := by
  constructor
  · unfold assessBlock
    apply runAssess_err
    rcases h with h | h | h | h
    · rw [h]; exact List.mem_cons_self _ _
    · rw [h]; exact List.mem_cons_of_mem _ (List.mem_cons_self _ _)
    · rw [h]
      exact List.mem_cons_of_mem _ (List.mem_cons_of_mem _ (List.mem_cons_self _ _))
    · rw [h]
      exact List.mem_cons_of_mem _
        (List.mem_cons_of_mem _ (List.mem_cons_of_mem _ (List.mem_cons_self _ _)))
  · unfold analyze_posture_endpoint
    rw [calc_err metrics issues h]
    rfl

/-- Claim C1, witness for the amended theorem: a concrete faulting
`headForwardRatio` value. -/
theorem C1_witness :
    dictGet [("headForwardRatio", JVal.bad)] "headForwardRatio" = JVal.bad ∧
    ((∃ ps, (assessBlock [("headForwardRatio", JVal.bad)]).1
        = ps ++ ["Error during metric analysis."]) ∧
      analyze_posture_endpoint [("headForwardRatio", JVal.bad)] [] = .error ()) :=
  ⟨rfl, C1_theorem _ _ (Or.inr (Or.inr (Or.inr rfl)))⟩

/-- Claim C3: for metrics = \x7btorsoAngleFromVertical: 25\x7d and no issues, the
score is 63, the single phrase is "Significant slouch or backward lean.", and
exactly the three torso recommendations are returned. -/
theorem C3_theorem :
    (assessBlock [("torsoAngleFromVertical", JVal.num 25)]).1
      = ["Significant slouch or backward lean."] ∧
    analyze_posture_endpoint [("torsoAngleFromVertical", JVal.num 25)] [] =
      .ok { score := some 63
            assessment := "Significant slouch or backward lean."
            recommendations := ["Sit tall, chest up.", "Use lumbar support actively.",
                                "Stretch chest/back during breaks."]
            maintenance_tips := MAINTENANCE_TIPS
            benefits := some BENEFITS } ∧
    ["Sit tall, chest up.", "Use lumbar support actively.",
     "Stretch chest/back during breaks."].length = 3 :=
  ⟨rfl, rfl, rfl⟩

/-- Claim C10: a non-empty metric mapping in which every recognized metric is
null, with an empty issue list, scores 80 (not null), is assessed as good
alignment, and carries no extras. -/
theorem C10_theorem :
    analyze_posture_endpoint
      [("shoulderAngle", JVal.null), ("torsoAngleFromVertical", JVal.null),
       ("spineHorizontalOffsetRatio", JVal.null), ("headForwardRatio", JVal.null)] [] =
    .ok { score := some 80
          assessment := "Posture analysis indicates good alignment."
          recommendations := []
          maintenance_tips := []
          benefits := none } :=
  rfl

theorem isEmpty_true_iff (l : Metrics) : l.isEmpty = true ↔ l = [] := by
  cases l <;> simp

theorem insuffCond_eq (issues : List String) :
    (issues.isEmpty ||
        issues.all fun i => containsTok i "visibility" || containsTok i "waiting")
      = issues.all fun i => containsTok i "visibility" || containsTok i "waiting" := by
  cases issues <;> simp

/-- Claim C2: on data-model inputs (numeric-or-null values), the Scorer
returns null exactly when the metric mapping is empty and every issue string
contains "visibility" or "waiting" (case-insensitively, vacuously true for an
empty issue list), and returns an integer in every other case. -/
theorem C2_theorem (metrics : Metrics) (issues : List String) (hwf : WF metrics) :
    (calculate_overall_score metrics issues = .ok none ↔
      metrics = [] ∧
        (issues.all fun i => containsTok i "visibility" || containsTok i "waiting") = true) ∧
    ∃ r : Option ℤ, calculate_overall_score metrics issues = .ok r := by
  by_cases hc : (metrics.isEmpty &&
      (issues.isEmpty ||
        issues.all fun i => containsTok i "visibility" || containsTok i "waiting")) = true
  · have hcalc : calculate_overall_score metrics issues = .ok none := by
      unfold calculate_overall_score
      rw [if_pos hc]
    refine ⟨⟨fun _ => ?_, fun _ => hcalc⟩, ⟨none, hcalc⟩⟩
    rw [Bool.and_eq_true, insuffCond_eq] at hc
    exact ⟨(isEmpty_true_iff metrics).mp hc.1, hc.2⟩
  · obtain ⟨z1, e1⟩ := scoreMetricAbs_ok _ THRESHOLDS.shoulder_angle_warning
      THRESHOLDS.shoulder_angle_significant
      (issues.any fun i => containsTok i "visibility")
      (dictGet_ne_bad metrics hwf "shoulderAngle")
    obtain ⟨z2, e2⟩ := scoreMetricAbs_ok _ THRESHOLDS.torso_angle_warning
      THRESHOLDS.torso_angle_significant
      (issues.any fun i => containsTok i "visibility")
      (dictGet_ne_bad metrics hwf "torsoAngleFromVertical")
    obtain ⟨z3, e3⟩ := scoreMetricRaw_ok _ THRESHOLDS.spine_offset_ratio_warning
      THRESHOLDS.spine_offset_ratio_significant
      (issues.any fun i => containsTok i "visibility")
      (dictGet_ne_bad metrics hwf "spineHorizontalOffsetRatio")
    obtain ⟨z4, e4⟩ := scoreMetricRaw_ok _ THRESHOLDS.head_forward_ratio_warning
      THRESHOLDS.head_forward_ratio_significant
      (issues.any fun i => containsTok i "visibility")
      (dictGet_ne_bad metrics hwf "headForwardRatio")
    have hcalc : calculate_overall_score metrics issues =
        .ok (some (max 0 (min 100 (100 - z1 - z2 - z3 - z4 -
          (if (issues.any fun i => containsTok i "visibility") then
            PENALTIES.visibility_issue else 0))))) := by
      unfold calculate_overall_score
      rw [if_neg hc]
      dsimp only
      rw [e1, e2, e3, e4]
      rfl
    refine ⟨⟨fun hno => ?_, fun hcond => ?_⟩, ⟨_, hcalc⟩⟩
    · rw [hcalc] at hno
      exact absurd hno (by simp)
    · exfalso
      apply hc
      rw [Bool.and_eq_true, insuffCond_eq]
      exact ⟨(isEmpty_true_iff metrics).mpr hcond.1, hcond.2⟩

/-- Claim C2, witness: a one-entry metric mapping with an empty issue list is
scored (score 63), and is not the null outcome. -/
theorem C2_witness :
    WF [("shoulderAngle", JVal.num 12)] ∧
    ((calculate_overall_score [("shoulderAngle", JVal.num 12)] [] = .ok none ↔
        [("shoulderAngle", JVal.num 12)] = ([] : Metrics) ∧
          (List.all [] fun i => containsTok i "visibility" || containsTok i "waiting") = true) ∧
      ∃ r : Option ℤ, calculate_overall_score [("shoulderAngle", JVal.num 12)] [] = .ok r) :=
  ⟨by decide, C2_theorem _ _ (by decide)⟩

/-- Claim C4: whenever the Scorer returns a non-null score, it lies in
[0, 100] (the final score is the clamp of the accumulated value). -/
theorem C4_theorem (metrics : Metrics) (issues : List String) (z : ℤ)
    (h : calculate_overall_score metrics issues = .ok (some z)) :
    0 ≤ z ∧ z ≤ 100 := by
  unfold calculate_overall_score at h
  split at h
  · exact absurd h (by simp)
  · dsimp only at h
    cases e1 : scoreMetricAbs (dictGet metrics "shoulderAngle")
        THRESHOLDS.shoulder_angle_warning THRESHOLDS.shoulder_angle_significant
        (issues.any fun i => containsTok i "visibility") with
    | error u => rw [e1] at h; exact absurd h (by simp [Bind.bind, Except.bind])
    | ok z1 =>
    rw [e1] at h
    cases e2 : scoreMetricAbs (dictGet metrics "torsoAngleFromVertical")
        THRESHOLDS.torso_angle_warning THRESHOLDS.torso_angle_significant
        (issues.any fun i => containsTok i "visibility") with
    | error u => rw [e2] at h; exact absurd h (by simp [Bind.bind, Except.bind])
    | ok z2 =>
    rw [e2] at h
    cases e3 : scoreMetricRaw (dictGet metrics "spineHorizontalOffsetRatio")
        THRESHOLDS.spine_offset_ratio_warning THRESHOLDS.spine_offset_ratio_significant
        (issues.any fun i => containsTok i "visibility") with
    | error u => rw [e3] at h; exact absurd h (by simp [Bind.bind, Except.bind])
    | ok z3 =>
    rw [e3] at h
    cases e4 : scoreMetricRaw (dictGet metrics "headForwardRatio")
        THRESHOLDS.head_forward_ratio_warning THRESHOLDS.head_forward_ratio_significant
        (issues.any fun i => containsTok i "visibility") with
    | error u => rw [e4] at h; exact absurd h (by simp [Bind.bind, Except.bind])
    | ok z4 =>
    rw [e4] at h
    simp only [Bind.bind, Except.bind, Except.ok.injEq, Option.some.injEq] at h
    constructor
    · rw [← h]; exact le_max_left _ _
    · rw [← h]; exact max_le (by norm_num) (min_le_left _ _)

/-- Claim C4, witness: a concrete scored input (score 85) is within
bounds. -/
theorem C4_witness :
    calculate_overall_score [("shoulderAngle", JVal.num 0)] [] = .ok (some 85) ∧
    (0:ℤ) ≤ 85 ∧ (85:ℤ) ≤ 100 :=
  ⟨rfl, C4_theorem [("shoulderAngle", JVal.num 0)] [] 85 rfl⟩

theorem assess_parts_nil_no_bad (metrics : Metrics)
    (h : (assessBlock metrics).1 = []) :
    dictGet metrics "shoulderAngle" ≠ JVal.bad ∧
    dictGet metrics "spineHorizontalOffsetRatio" ≠ JVal.bad ∧
    dictGet metrics "torsoAngleFromVertical" ≠ JVal.bad ∧
    dictGet metrics "headForwardRatio" ≠ JVal.bad := by
  unfold assessBlock at h
  have hne := runAssess_no_err _ h
  refine ⟨?_, ?_, ?_, ?_⟩
  · intro hb
    exact hne _ (List.mem_cons_self _ _) (by rw [hb]; rfl)
  · intro hb
    exact hne _ (List.mem_cons_of_mem _ (List.mem_cons_self _ _)) (by rw [hb]; rfl)
  · intro hb
    exact hne _
      (List.mem_cons_of_mem _ (List.mem_cons_of_mem _ (List.mem_cons_self _ _)))
      (by rw [hb]; rfl)
  · intro hb
    exact hne _
      (List.mem_cons_of_mem _ (List.mem_cons_of_mem _
        (List.mem_cons_of_mem _ (List.mem_cons_self _ _))))
      (by rw [hb]; rfl)

theorem scorer_ok_of_parts_nil (metrics : Metrics) (issues : List String)
    (h : (assessBlock metrics).1 = []) :
    ∃ r, calculate_overall_score metrics issues = .ok r := by
  obtain ⟨h1, h3, h2, h4⟩ := assess_parts_nil_no_bad metrics h
  exact calc_ok metrics issues h1 h2 h3 h4

/-- Claim C5: a visibility/unclear or waiting issue with no posture phrase
forces empty recommendations and excluded extras, whatever was decided
before. -/
theorem C5_theorem (metrics : Metrics) (issues : List String)
    (hvw : (issues.any fun p => containsTok p "visibility" || containsTok p "unclear") = true ∨
           (issues.any fun p => containsTok p "waiting") = true)
    (hparts : (assessBlock metrics).1 = []) :
    ∃ fb, analyze_posture_endpoint metrics issues = .ok fb ∧
      fb.recommendations = [] ∧ fb.maintenance_tips = [] ∧ fb.benefits = none := by
  obtain ⟨r, hr⟩ := scorer_ok_of_parts_nil metrics issues hparts
  have hor : ((issues.any fun p => containsTok p "visibility" || containsTok p "unclear") ||
      issues.any fun p => containsTok p "waiting") = true := by
    rcases hvw with h | h <;> simp [h]
  refine ⟨_, (endpoint_ok_iff metrics issues _).mpr ⟨r, hr, rfl⟩, ?_, ?_, ?_⟩ <;>
    rw [hparts] <;>
    simp [composeFeedback, hor]

/-- Claim C6: with no posture phrases and a visibility/unclear issue, the
assessment is the fixed visibility sentence, and this branch wins even when a
waiting issue is present as well. -/
theorem C6_theorem (metrics : Metrics) (issues : List String)
    (hvis : (issues.any fun p => containsTok p "visibility" || containsTok p "unclear") = true)
    (hparts : (assessBlock metrics).1 = []) :
    ∃ fb, analyze_posture_endpoint metrics issues = .ok fb ∧
      fb.assessment =
        "Could not analyze clearly due to visibility. Adjust position/lighting." := by
  obtain ⟨r, hr⟩ := scorer_ok_of_parts_nil metrics issues hparts
  refine ⟨_, (endpoint_ok_iff metrics issues _).mpr ⟨r, hr, rfl⟩, ?_⟩
  rw [hparts]
  simp [composeFeedback, hvis]
  rfl

/-- Claim C7: maintenance tips and the benefits string are included or
excluded atomically in every successful result. -/
theorem C7_theorem (metrics : Metrics) (issues : List String) (fb : PostureFeedback)
    (h : analyze_posture_endpoint metrics issues = .ok fb) :
    (fb.maintenance_tips = MAINTENANCE_TIPS ∧ fb.benefits = some BENEFITS) ∨
    (fb.maintenance_tips = [] ∧ fb.benefits = none) := by
  obtain ⟨r, hr, rfl⟩ := (endpoint_ok_iff metrics issues fb).mp h
  unfold composeFeedback
  dsimp only
  split_ifs <;> first
    | exact Or.inl ⟨rfl, rfl⟩
    | exact Or.inr ⟨rfl, rfl⟩

/-- Claim C8: the returned recommendations are duplicate-free, are an
order-preserving subsequence of the recommendations the Assessor generated,
and are exactly the first-occurrence de-duplication of the generated
(non-empty-string) recommendations unless the visibility/waiting-only
override emptied them. -/
theorem C8_theorem (metrics : Metrics) (issues : List String) (fb : PostureFeedback)
    (h : analyze_posture_endpoint metrics issues = .ok fb) :
    fb.recommendations.Nodup ∧
    List.Sublist fb.recommendations (assessBlock metrics).2 ∧
    (fb.recommendations =
        dedupFirst ((assessBlock metrics).2.filter fun r => !(r = "")) ∨
      fb.recommendations = []) := by
  obtain ⟨r, hr, rfl⟩ := (endpoint_ok_iff metrics issues fb).mp h
  unfold composeFeedback
  dsimp only
  split_ifs <;> first
    | exact ⟨List.nodup_nil, List.nil_sublist _, Or.inr rfl⟩
    | exact ⟨dedupFirst_nodup _,
        (dedupFirst_sublist _).trans (List.filter_sublist _), Or.inl rfl⟩

theorem pyAbs_eq_abs (q : ℚ) : pyAbs q = |q| := by
  unfold pyAbs
  split_ifs with h
  · exact (abs_of_neg h).symm
  · exact (abs_of_nonneg (le_of_not_lt h)).symm

theorem penAbs_mono (w s m1 m2 : ℚ) (h : m1 ≤ m2) :
    (if m1 > s then PENALTIES.significant
     else if m1 > w then PENALTIES.warning else 0) ≤
    (if m2 > s then PENALTIES.significant
     else if m2 > w then PENALTIES.warning else 0) := by
  have hws : PENALTIES.warning ≤ PENALTIES.significant := by norm_num [PENALTIES]
  have hw0 : (0:ℤ) ≤ PENALTIES.warning := by norm_num [PENALTIES]
  have hs0 : (0:ℤ) ≤ PENALTIES.significant := by norm_num [PENALTIES]
  split_ifs <;> first
    | exact le_refl _
    | linarith

theorem scoreMetricAbs_num (q w s : ℚ) (b : Bool) :
    scoreMetricAbs (JVal.num q) w s b =
      .ok (if pyAbs q > s then PENALTIES.significant
           else if pyAbs q > w then PENALTIES.warning else 0) := by
  simp only [scoreMetricAbs]
  split_ifs <;> rfl

theorem dictGet_cons_eq (k : String) (v : JVal) (rest : Metrics) :
    dictGet ((k, v) :: rest) k = v := by
  simp [dictGet]

theorem dictGet_cons_ne (k k' : String) (v : JVal) (rest : Metrics) (h : k ≠ k') :
    dictGet ((k, v) :: rest) k' = dictGet rest k' := by
  simp [dictGet, h]

/-- Claim C9: with everything but `shoulderAngle` fixed, growing
`|shoulderAngle|` never increases the score. -/
theorem C9_theorem (rest : Metrics) (issues : List String) (a1 a2 : ℚ)
    (hle : |a1| ≤ |a2|) (z1 z2 : ℤ)
    (h1 : calculate_overall_score (("shoulderAngle", JVal.num a1) :: rest) issues
      = .ok (some z1))
    (h2 : calculate_overall_score (("shoulderAngle", JVal.num a2) :: rest) issues
      = .ok (some z2)) :
    z2 ≤ z1 := by
  unfold calculate_overall_score at h1 h2
  rw [if_neg (by simp)] at h1
  rw [if_neg (by simp)] at h2
  dsimp only at h1 h2
  rw [dictGet_cons_eq "shoulderAngle" (JVal.num a1) rest,
    dictGet_cons_ne "shoulderAngle" "torsoAngleFromVertical" (JVal.num a1) rest (by decide),
    dictGet_cons_ne "shoulderAngle" "spineHorizontalOffsetRatio" (JVal.num a1) rest (by decide),
    dictGet_cons_ne "shoulderAngle" "headForwardRatio" (JVal.num a1) rest (by decide),
    scoreMetricAbs_num] at h1
  rw [dictGet_cons_eq "shoulderAngle" (JVal.num a2) rest,
    dictGet_cons_ne "shoulderAngle" "torsoAngleFromVertical" (JVal.num a2) rest (by decide),
    dictGet_cons_ne "shoulderAngle" "spineHorizontalOffsetRatio" (JVal.num a2) rest (by decide),
    dictGet_cons_ne "shoulderAngle" "headForwardRatio" (JVal.num a2) rest (by decide),
    scoreMetricAbs_num] at h2
  cases e2 : scoreMetricAbs (dictGet rest "torsoAngleFromVertical")
      THRESHOLDS.torso_angle_warning THRESHOLDS.torso_angle_significant
      (issues.any fun i => containsTok i "visibility") with
  | error u => rw [e2] at h1; exact absurd h1 (by simp [Bind.bind, Except.bind])
  | ok y2 =>
  rw [e2] at h1 h2
  cases e3 : scoreMetricRaw (dictGet rest "spineHorizontalOffsetRatio")
      THRESHOLDS.spine_offset_ratio_warning THRESHOLDS.spine_offset_ratio_significant
      (issues.any fun i => containsTok i "visibility") with
  | error u => rw [e3] at h1; exact absurd h1 (by simp [Bind.bind, Except.bind])
  | ok y3 =>
  rw [e3] at h1 h2
  cases e4 : scoreMetricRaw (dictGet rest "headForwardRatio")
      THRESHOLDS.head_forward_ratio_warning THRESHOLDS.head_forward_ratio_significant
      (issues.any fun i => containsTok i "visibility") with
  | error u => rw [e4] at h1; exact absurd h1 (by simp [Bind.bind, Except.bind])
  | ok y4 =>
  rw [e4] at h1 h2
  simp only [Bind.bind, Except.bind, Except.ok.injEq, Option.some.injEq] at h1 h2
  rw [← h1, ← h2]
  refine max_le_max (le_refl 0) (min_le_min (le_refl 100) ?_)
  have hP := penAbs_mono THRESHOLDS.shoulder_angle_warning
    THRESHOLDS.shoulder_angle_significant |a1| |a2| hle
  rw [pyAbs_eq_abs a1, pyAbs_eq_abs a2]
  linarith

/-- Claim C9, witness: shoulder angle 6 scores 71, shoulder angle 12 scores
63, and the theorem yields 63 ≤ 71. -/
theorem C9_witness :
    |(6:ℚ)| ≤ |(12:ℚ)| ∧
    calculate_overall_score [("shoulderAngle", JVal.num 6)] [] = .ok (some 71) ∧
    calculate_overall_score [("shoulderAngle", JVal.num 12)] [] = .ok (some 63) ∧
    (63:ℤ) ≤ 71 :=
  ⟨by norm_num, rfl, rfl, C9_theorem [] [] 6 12 (by norm_num) 71 63 rfl rfl⟩

/-- Claim C5, witness: a waiting-only request (empty metrics) ends with no
recommendations and no extras. -/
theorem C5_witness :
    (List.any ["waiting for pose"] fun p => containsTok p "waiting") = true ∧
    (assessBlock []).1 = [] ∧
    (∃ fb, analyze_posture_endpoint [] ["waiting for pose"] = .ok fb ∧
      fb.recommendations = [] ∧ fb.maintenance_tips = [] ∧ fb.benefits = none) :=
  ⟨rfl, rfl, C5_theorem [] ["waiting for pose"] (Or.inr rfl) rfl⟩

/-- Claim C6, witness: visibility and waiting issues together, with no
phrases, still produce the visibility assessment. -/
theorem C6_witness :
    (List.any ["visibility: low light", "waiting for pose"]
      fun p => containsTok p "visibility" || containsTok p "unclear") = true ∧
    (assessBlock []).1 = [] ∧
    (∃ fb,
      analyze_posture_endpoint [] ["visibility: low light", "waiting for pose"] = .ok fb ∧
      fb.assessment =
        "Could not analyze clearly due to visibility. Adjust position/lighting.") :=
  ⟨rfl, rfl, C6_theorem [] ["visibility: low light", "waiting for pose"] rfl rfl⟩

/-- Claim C7, witness: a significant shoulder issue includes both extras
together. -/
theorem C7_witness :
    ∃ fb, analyze_posture_endpoint [("shoulderAngle", JVal.num 12)] [] = .ok fb ∧
      ((fb.maintenance_tips = MAINTENANCE_TIPS ∧ fb.benefits = some BENEFITS) ∨
       (fb.maintenance_tips = [] ∧ fb.benefits = none)) :=
  ⟨_, rfl, C7_theorem [("shoulderAngle", JVal.num 12)] [] _ rfl⟩

/-- Claim C8, witness: two significant metrics produce a duplicate-free
recommendation list equal to the de-duplicated generated list. -/
theorem C8_witness :
    ∃ fb,
      analyze_posture_endpoint
        [("shoulderAngle", JVal.num 12), ("headForwardRatio", JVal.num (mkRat 1 5))] [] = .ok fb ∧
      (fb.recommendations.Nodup ∧
       List.Sublist fb.recommendations
         (assessBlock [("shoulderAngle", JVal.num 12),
           ("headForwardRatio", JVal.num (mkRat 1 5))]).2 ∧
       (fb.recommendations =
          dedupFirst ((assessBlock [("shoulderAngle", JVal.num 12),
            ("headForwardRatio", JVal.num (mkRat 1 5))]).2.filter fun r => !(r = "")) ∨
        fb.recommendations = [])) :=
  ⟨{ score := some 46
     assessment := "Shoulders significantly uneven. Significant forward head posture."
     recommendations := ["Sit evenly, relax shoulders.", "Check armrest height/usage.",
       "Gently tuck chin (ears over shoulders).", "Ensure monitor at eye level & arm's length."]
     maintenance_tips := MAINTENANCE_TIPS
     benefits := some BENEFITS },
   rfl,
   C8_theorem
    [("shoulderAngle", JVal.num 12), ("headForwardRatio", JVal.num (mkRat 1 5))] []
    { score := some 46
      assessment := "Shoulders significantly uneven. Significant forward head posture."
      recommendations := ["Sit evenly, relax shoulders.", "Check armrest height/usage.",
        "Gently tuck chin (ears over shoulders).", "Ensure monitor at eye level & arm's length."]
      maintenance_tips := MAINTENANCE_TIPS
      benefits := some BENEFITS } rfl⟩
